import Mathlib

/-!
Verification development for the resilience core of the nuclino-mcp server:
shallow embedding of the error taxonomy and retry policy
(internal/errors, concatenated in internal/monitoring/metrics.go),
the rate limiter and circuit breaker (internal/ratelimit/ratelimit.go),
the LRU/TTL cache (internal/cache), and the enhanced client orchestrator
(internal/nuclino enhanced client).

Modelling conventions:
* Go `time.Time` / `time.Duration` values are integers (nanoseconds); the
  code only compares and subtracts them.
* Go `float64` arithmetic (backoff delays, adaptive RPS) is modelled over `ℚ`
  with the exact decimal constants from the source; rounding of float64 is
  out of scope.
* Go maps are association lists kept in insertion order with unique keys;
  Go's unspecified map iteration order is determinized to list order
  (counterexamples below are chosen so that no admissible iteration order
  restores the claimed behaviour).
* Mutexes are dropped: each operation is a pure state transformer.
-/

namespace NuclinoMCP

/-! ### Error taxonomy (internal/errors: Error, ErrorType, Severity) -/

/-- `ErrorType` constants from internal/errors. -/
inductive ErrorType
  | validation
  | authentication
  | authorization
  | rateLimit
  | network
  | api
  | internalErr
  | circuitBreaker
  | timeout
  | notFound
  | conflict
deriving DecidableEq, Repr

/-- `Severity` constants from internal/errors. -/
inductive Severity
  | low
  | medium
  | high
  | critical
deriving DecidableEq, Repr

/-- internal/errors `Error` struct (fields relevant to classification and
retry: message/context/timestamp/stack are omitted).  The Go field `Type` is
called `errType` here because `Type` is reserved in Lean. -/
structure CError where
  errType : ErrorType
  code : String
  httpStatus : Int
  severity : Severity
  retryable : Bool
deriving DecidableEq, Repr

/-- A Go `error` value as seen by the retry logic: either a categorized
`*errors.Error` or some other error. -/
inductive GoError
  | categorized (e : CError)
  | plain (msg : String)
deriving DecidableEq, Repr

/-- `NewError`: defaults to severity Medium, not retryable, no HTTP status. -/
def NewError (t : ErrorType) (code : String) : CError :=
  { errType := t, code := code, httpStatus := 0, severity := .medium, retryable := false }

/-- `NewValidationError` (severity Low, no HTTP status is attached). -/
def NewValidationError : CError :=
  { NewError .validation "VALIDATION_ERROR" with severity := .low }

/-- `NewAuthenticationError` (401, severity High). -/
def NewAuthenticationError : CError :=
  { NewError .authentication "AUTH_ERROR" with httpStatus := 401, severity := .high }

/-- `NewAuthorizationError` (403, severity High). -/
def NewAuthorizationError : CError :=
  { NewError .authorization "FORBIDDEN" with httpStatus := 403, severity := .high }

/-- `NewRateLimitError` (429, severity Medium, retryable). -/
def NewRateLimitError : CError :=
  { NewError .rateLimit "RATE_LIMIT_EXCEEDED" with
      httpStatus := 429, severity := .medium, retryable := true }

/-- `NewNetworkError` (retryable, severity Medium, no HTTP status). -/
def NewNetworkError : CError :=
  { NewError .network "NETWORK_ERROR" with severity := .medium, retryable := true }

/-- `NewTimeoutError` (408, retryable, severity Medium). -/
def NewTimeoutError : CError :=
  { NewError .timeout "TIMEOUT" with
      httpStatus := 408, severity := .medium, retryable := true }

/-- `NewAPIError`: severity High when the status is >= 500, Medium otherwise;
retryable for 429 and >= 500. -/
def NewAPIError (httpStatus : Int) (code : String) : CError :=
  { NewError .api code with
      httpStatus := httpStatus,
      severity := if 500 ≤ httpStatus then .high else .medium,
      retryable := httpStatus = 429 ∨ 500 ≤ httpStatus }

/-- `NewNotFoundError` (404, severity Low). -/
def NewNotFoundError : CError :=
  { NewError .notFound "NOT_FOUND" with httpStatus := 404, severity := .low }

/-- `NewConflictError` (409, severity Medium). -/
def NewConflictError : CError :=
  { NewError .conflict "CONFLICT" with httpStatus := 409 }

/-- `NewCircuitBreakerError` (retryable, severity High). -/
def NewCircuitBreakerError : CError :=
  { NewError .circuitBreaker "CIRCUIT_BREAKER_OPEN" with
      severity := .high, retryable := true }

/-- `NewInternalError` (500, severity Critical). -/
def NewInternalError : CError :=
  { NewError .internalErr "INTERNAL_ERROR" with httpStatus := 500, severity := .critical }

/-- `IsRetryable`: the `Retryable` flag of a categorized error, false for any
other error value. -/
def IsRetryable : GoError → Bool
  | .categorized e => e.retryable
  | .plain _ => false

/-- `GetErrorType`: the type of a categorized error, `Internal` otherwise. -/
def GetErrorType : GoError → ErrorType
  | .categorized e => e.errType
  | .plain _ => .internalErr

/-! ### Retry policy (internal/errors: RetryConfig) -/

/-- `RetryConfig`.  `InitialDelay`/`MaxDelay` are durations and
`BackoffFactor` a float64; the delay computation works in float64 in the
source and in `ℚ` here. -/
structure RetryConfig where
  maxRetries : Int
  initialDelay : ℚ
  maxDelay : ℚ
  backoffFactor : ℚ
  retryableErrors : List ErrorType
deriving DecidableEq, Repr

/-- The `for _, retryableType := range c.RetryableErrors` loop body of
`ShouldRetry`. -/
def containsErrorType : List ErrorType → ErrorType → Bool
  | [], _ => false
  | t :: ts, x => if t = x then true else containsErrorType ts x

/-- `RetryConfig.ShouldRetry`. -/
def RetryConfig.ShouldRetry (c : RetryConfig) (err : GoError) (attempt : Int) : Bool :=
  if attempt ≥ c.maxRetries then false
  else if ¬ IsRetryable err then false
  else if containsErrorType c.retryableErrors (GetErrorType err) then true
  else false

/-- The multiplication loop of `RetryConfig.CalculateDelay`:
`for i := 0; i < attempt; i++ { delay *= c.BackoffFactor }`. -/
def delayLoop (b : ℚ) : ℚ → Nat → ℚ
  | d, 0 => d
  | d, n + 1 => delayLoop b (d * b) n

/-- `RetryConfig.CalculateDelay`. -/
def RetryConfig.CalculateDelay (c : RetryConfig) (attempt : Nat) : ℚ :=
  let delay := delayLoop c.backoffFactor c.initialDelay attempt
  if delay > c.maxDelay then c.maxDelay else delay

/-- `DefaultRetryConfig` (delays in nanoseconds). -/
def DefaultRetryConfig : RetryConfig :=
  { maxRetries := 3
    initialDelay := 1000000000
    maxDelay := 30000000000
    backoffFactor := 2
    retryableErrors := [.network, .timeout, .rateLimit, .circuitBreaker] }

/-! ### Circuit breaker (internal/ratelimit/ratelimit.go) -/

/-- `CircuitBreakerState` constants. -/
inductive CircuitBreakerState
  | StateClosed
  | StateOpen
  | StateHalfOpen
deriving DecidableEq, Repr

/-- `CircuitBreakerConfig` (Go `int` / `time.Duration` fields as `Int`). -/
structure CircuitBreakerConfig where
  failureThreshold : Int
  recoveryTimeout : Int
  maxRetries : Int
  retryDelay : Int
  halfOpenMaxCalls : Int
deriving DecidableEq, Repr

/-- `CircuitBreaker` state (the mutex is dropped). -/
structure CircuitBreaker where
  state : CircuitBreakerState
  failureCount : Int
  successCount : Int
  lastFailureTime : Int
  config : CircuitBreakerConfig
deriving DecidableEq, Repr

/-- `CircuitBreaker.CanExecute`, with `time.Now()` passed explicitly.  In the
Open case the source drops to a write lock, re-checks the same condition and
moves to HalfOpen; sequentially that re-check always succeeds, so the model
performs the transition directly and returns `state == StateHalfOpen`. -/
def CircuitBreaker.CanExecute (c : CircuitBreaker) (now : Int) : Bool × CircuitBreaker :=
  match c.state with
  | .StateClosed => (true, c)
  | .StateOpen =>
      if now - c.lastFailureTime > c.config.recoveryTimeout then
        (true, { c with state := .StateHalfOpen, successCount := 0 })
      else
        (false, c)
  | .StateHalfOpen => (c.successCount < c.config.halfOpenMaxCalls, c)

/-- `CircuitBreaker.OnSuccess`. -/
def CircuitBreaker.OnSuccess (c : CircuitBreaker) : CircuitBreaker :=
  match c.state with
  | .StateClosed => { c with failureCount := 0 }
  | .StateHalfOpen =>
      if c.successCount + 1 ≥ c.config.halfOpenMaxCalls then
        { c with state := .StateClosed, failureCount := 0, successCount := 0 }
      else
        { c with successCount := c.successCount + 1 }
  | .StateOpen => c

/-- `CircuitBreaker.OnFailure` (the switch has no Open case, so from Open only
`lastFailureTime` changes). -/
def CircuitBreaker.OnFailure (c : CircuitBreaker) (now : Int) : CircuitBreaker :=
  match c.state with
  | .StateClosed =>
      if c.failureCount + 1 ≥ c.config.failureThreshold then
        { c with lastFailureTime := now, failureCount := c.failureCount + 1,
                 state := .StateOpen }
      else
        { c with lastFailureTime := now, failureCount := c.failureCount + 1 }
  | .StateHalfOpen =>
      { c with lastFailureTime := now, state := .StateOpen, successCount := 0 }
  | .StateOpen => { c with lastFailureTime := now }

/-- A sequence of `OnFailure` calls at the given times. -/
def CircuitBreaker.OnFailures (c : CircuitBreaker) : List Int → CircuitBreaker
  | [] => c
  | t :: ts => (c.OnFailure t).OnFailures ts

/-- `n` consecutive `OnSuccess` calls. -/
def CircuitBreaker.OnSuccesses (c : CircuitBreaker) : Nat → CircuitBreaker
  | 0 => c
  | n + 1 => c.OnSuccess.OnSuccesses n

/-! ### Rate limiter (internal/ratelimit/ratelimit.go) -/

/-- `rateLimitMetrics` (and the identical public snapshot `RateLimitMetrics`). -/
structure RateLimitMetrics where
  totalRequests : Int
  allowedRequests : Int
  rejectedRequests : Int
  circuitBreakerTrips : Int
  lastReset : Int
deriving DecidableEq, Repr

/-- `RateLimiter`.  The embedded `golang.org/x/time/rate` token bucket is
external code, so its verdict (`limiter.Allow()` respectively the result of
`limiter.Wait(ctx)`) enters each operation as an explicit boolean input. -/
structure RateLimiter where
  circuitBreaker : CircuitBreaker
  metrics : RateLimitMetrics
deriving DecidableEq, Repr

/-- A fresh `NewRateLimiter`: breaker Closed with zero counters, metrics
zeroed with `LastReset = now` (the config-default normalization only touches
config values and is irrelevant here). -/
def NewRateLimiter (cfg : CircuitBreakerConfig) (now : Int) : RateLimiter :=
  { circuitBreaker :=
      { state := .StateClosed, failureCount := 0, successCount := 0,
        lastFailureTime := 0, config := cfg }
    metrics :=
      { totalRequests := 0, allowedRequests := 0, rejectedRequests := 0,
        circuitBreakerTrips := 0, lastReset := now } }

/-- `RateLimiter.Allow`: `tokenAvail` is the verdict of `limiter.Allow()`.
Returns `some message` on rejection. -/
def RateLimiter.Allow (r : RateLimiter) (now : Int) (tokenAvail : Bool) :
    Option String × RateLimiter :=
  let r := { r with metrics := { r.metrics with totalRequests := r.metrics.totalRequests + 1 } }
  let res := r.circuitBreaker.CanExecute now
  let r := { r with circuitBreaker := res.2 }
  if ¬ res.1 then
    (some "circuit breaker is open",
     { r with metrics := { r.metrics with rejectedRequests := r.metrics.rejectedRequests + 1 } })
  else if ¬ tokenAvail then
    (some "rate limit exceeded",
     { r with metrics := { r.metrics with rejectedRequests := r.metrics.rejectedRequests + 1 } })
  else
    (none,
     { r with metrics := { r.metrics with allowedRequests := r.metrics.allowedRequests + 1 } })

/-- `RateLimiter.Wait`: `waitErr` is true when `limiter.Wait(ctx)` returned an
error (rate budget exhausted and context cancelled or deadline exceeded). -/
def RateLimiter.Wait (r : RateLimiter) (now : Int) (waitErr : Bool) :
    Option String × RateLimiter :=
  let r := { r with metrics := { r.metrics with totalRequests := r.metrics.totalRequests + 1 } }
  let res := r.circuitBreaker.CanExecute now
  let r := { r with circuitBreaker := res.2 }
  if ¬ res.1 then
    (some "circuit breaker is open",
     { r with metrics := { r.metrics with rejectedRequests := r.metrics.rejectedRequests + 1 } })
  else if waitErr then
    (some "context error",
     { r with metrics := { r.metrics with rejectedRequests := r.metrics.rejectedRequests + 1 } })
  else
    (none,
     { r with metrics := { r.metrics with allowedRequests := r.metrics.allowedRequests + 1 } })

/-- `RateLimiter.OnSuccess` (pass-through to the breaker). -/
def RateLimiter.OnSuccess (r : RateLimiter) : RateLimiter :=
  { r with circuitBreaker := r.circuitBreaker.OnSuccess }

/-- `RateLimiter.OnFailure` (pass-through to the breaker). -/
def RateLimiter.OnFailure (r : RateLimiter) (now : Int) : RateLimiter :=
  { r with circuitBreaker := r.circuitBreaker.OnFailure now }

/-- `RateLimiter.GetMetrics` (snapshot copy). -/
def RateLimiter.GetMetrics (r : RateLimiter) : RateLimitMetrics :=
  r.metrics

/-- `RateLimiter.ResetMetrics`. -/
def RateLimiter.ResetMetrics (r : RateLimiter) (now : Int) : RateLimiter :=
  { r with metrics :=
      { totalRequests := 0, allowedRequests := 0, rejectedRequests := 0,
        circuitBreakerTrips := 0, lastReset := now } }

/-- One externally observable rate limiter operation, with the inputs the
environment supplies (the current time and the token bucket verdict). -/
inductive RLOp
  | allow (now : Int) (tokenAvail : Bool)
  | wait (now : Int) (waitErr : Bool)
  | onSuccess
  | onFailure (now : Int)
  | resetMetrics (now : Int)
deriving DecidableEq, Repr

/-- Apply one operation to the rate limiter state. -/
def RateLimiter.applyOp (r : RateLimiter) : RLOp → RateLimiter
  | .allow now tok => (r.Allow now tok).2
  | .wait now werr => (r.Wait now werr).2
  | .onSuccess => r.OnSuccess
  | .onFailure now => r.OnFailure now
  | .resetMetrics now => r.ResetMetrics now

/-- Run a sequence of operations. -/
def RateLimiter.runOps (r : RateLimiter) : List RLOp → RateLimiter
  | [] => r
  | op :: ops => (r.applyOp op).runOps ops

/-! ### Adaptive rate limiter (internal/ratelimit/ratelimit.go) -/

/-- `AdaptiveRateLimiter`: the wrapped limiter plus RPS bounds, all float64
fields over `ℚ`.  `limiter.SetLimit` only reconfigures the external token
bucket and is not part of the state here. -/
structure AdaptiveRateLimiter where
  rl : RateLimiter
  baseRPS : ℚ
  currentRPS : ℚ
  minRPS : ℚ
  maxRPS : ℚ
  adjustPeriod : Int
  lastAdjust : Int
deriving DecidableEq, Repr

/-- `AdaptiveRateLimiter.Adjust`, with `time.Now()` passed explicitly.  The
float constants 1.1, 0.9, 0.95, 0.8 are the exact rationals 11/10, 9/10,
19/20, 4/5. -/
def AdaptiveRateLimiter.Adjust (a : AdaptiveRateLimiter) (now : Int) : AdaptiveRateLimiter :=
  if now - a.lastAdjust < a.adjustPeriod then a
  else
    let m := a.rl.GetMetrics
    if m.totalRequests = 0 then a
    else
      let successRate : ℚ := (m.allowedRequests : ℚ) / (m.totalRequests : ℚ)
      let newRPS : ℚ :=
        if successRate > 95 / 100 ∧ a.rl.circuitBreaker.state = .StateClosed then
          min (a.currentRPS * (11 / 10)) a.maxRPS
        else if successRate < 8 / 10 ∨ a.rl.circuitBreaker.state ≠ .StateClosed then
          max (a.currentRPS * (9 / 10)) a.minRPS
        else
          a.currentRPS
      { a with currentRPS := newRPS, lastAdjust := now, rl := a.rl.ResetMetrics now }

/-! ### HTTP outcome classification (enhanced client, internal/nuclino) -/

/-- The observable outcome of one HTTP attempt: either the transport failed
(resty returned a non-nil error) or a response with a status code arrived. -/
inductive HTTPOutcome
  | transportError (msg : String)
  | response (status : Int)
deriving DecidableEq, Repr

/-- `EnhancedClient.handleHTTPResponse`: `none` for 2xx, otherwise the
categorized error built for the status code. -/
def handleHTTPResponse (status : Int) : Option CError :=
  if 200 ≤ status ∧ status < 300 then none
  else if status = 400 then some NewValidationError
  else if status = 401 then some NewAuthenticationError
  else if status = 403 then some NewAuthorizationError
  else if status = 404 then some NewNotFoundError
  else if status = 429 then some NewRateLimitError
  else if status = 409 then some NewConflictError
  else if status = 408 then some NewTimeoutError
  else if 500 ≤ status then some (NewAPIError status "SERVER_ERROR")
  else some (NewAPIError status "CLIENT_ERROR")

/-- `EnhancedClient.doHTTPRequest` error path: a transport failure becomes a
Network error, otherwise the response is classified by
`handleHTTPResponse`. -/
def classifyOutcome : HTTPOutcome → Option CError
  | .transportError _ => some NewNetworkError
  | .response s => handleHTTPResponse s

/-- Modelled from the spec: the reference mapping of §4.5 as the claim reads
it, amended only in the final clause — any other non-2xx status (which is
necessarily an unlisted status below 500) is an UpstreamAPI-kind error, not
Internal.  Used to compare the source classification against the spec. -/
def specErrorKind : HTTPOutcome → Option ErrorType
  | .transportError _ => some .network
  | .response s =>
      if 200 ≤ s ∧ s < 300 then none
      else if s = 400 then some .validation
      else if s = 401 then some .authentication
      else if s = 403 then some .authorization
      else if s = 404 then some .notFound
      else if s = 429 then some .rateLimit
      else if s = 409 then some .conflict
      else if s = 408 then some .timeout
      else if 500 ≤ s then some .api
      else some .api

/-- The admission step of `EnhancedClient.executeRequest` (lines 119-122):
whatever error `RateLimiter.Wait` returns — circuit breaker denial or context
cancellation during the token wait — the attempt outcome recorded in
`lastErr` is `errors.NewRateLimitError(...)`. -/
def attemptWaitOutcome (r : RateLimiter) (now : Int) (waitErr : Bool) :
    Option CError × RateLimiter :=
  let res := r.Wait now waitErr
  match res.1 with
  | some _ => (some NewRateLimitError, res.2)
  | none => (none, res.2)

/-! ### Cache (internal/cache) -/

/-- `CacheItem` (`Value` is Go `interface{}`, a type parameter here). -/
structure CacheItem (α : Type) where
  value : α
  expiresAt : Int
  accessedAt : Int
  hitCount : Int
deriving DecidableEq, Repr

/-- `CacheItem.IsExpired`: `time.Now().After(ExpiresAt)`. -/
def CacheItem.IsExpired (it : CacheItem α) (now : Int) : Bool :=
  now > it.expiresAt

/-- `CacheItem.Touch`. -/
def CacheItem.Touch (it : CacheItem α) (now : Int) : CacheItem α :=
  { it with accessedAt := now, hitCount := it.hitCount + 1 }

/-- `CacheStats`. -/
structure CacheStats where
  hits : Int
  misses : Int
  evictions : Int
  expirations : Int
deriving DecidableEq, Repr

/-- `Cache`: the Go map is an association list with unique keys in insertion
order (Go's unspecified iteration order is determinized to list order). -/
structure Cache (α : Type) where
  items : List (String × CacheItem α)
  maxSize : Int
  defaultTTL : Int
  stats : CacheStats
deriving DecidableEq, Repr

/-- Map read `c.items[key]`. -/
def findItem : List (String × CacheItem α) → String → Option (CacheItem α)
  | [], _ => none
  | (k, it) :: rest, key => if k = key then some it else findItem rest key

/-- Map write `c.items[key] = item`: replace in place when the key is
present, append otherwise. -/
def mapInsert : List (String × CacheItem α) → String → CacheItem α →
    List (String × CacheItem α)
  | [], key, item => [(key, item)]
  | (k, it) :: rest, key, item =>
      if k = key then (key, item) :: rest else (k, it) :: mapInsert rest key item

/-- Map delete `delete(c.items, key)`. -/
def mapErase : List (String × CacheItem α) → String → List (String × CacheItem α)
  | [], _ => []
  | (k, it) :: rest, key => if k = key then rest else (k, it) :: mapErase rest key

/-- In-place `Touch` of the entry under `key` (what `Get` does on a hit). -/
def mapTouch (l : List (String × CacheItem α)) (key : String) (now : Int) :
    List (String × CacheItem α) :=
  l.map fun p => if p.1 = key then (p.1, p.2.Touch now) else p

/-- `NewCache` (the background `cleanup` goroutine is a separate timer thread
and is not part of a single operation sequence). -/
def NewCache (α : Type) (maxSize : Int) (defaultTTL : Int) : Cache α :=
  { items := [], maxSize := maxSize, defaultTTL := defaultTTL,
    stats := { hits := 0, misses := 0, evictions := 0, expirations := 0 } }

/-- `Cache.Get`, with `time.Now()` explicit. -/
def Cache.Get (c : Cache α) (key : String) (now : Int) : Option α × Cache α :=
  match findItem c.items key with
  | none =>
      (none, { c with stats := { c.stats with misses := c.stats.misses + 1 } })
  | some it =>
      if it.IsExpired now then
        (none, { c with stats := { c.stats with
            misses := c.stats.misses + 1,
            expirations := c.stats.expirations + 1 } })
      else
        (some it.value,
         { c with items := mapTouch c.items key now,
                  stats := { c.stats with hits := c.stats.hits + 1 } })

/-- The scan loop of `evictLRU`.  The accumulator starts at
`oldestKey = ""` and the zero `time.Time`; an entry wins when
`oldestKey == "" || item.AccessedAt.Before(oldestTime)`. -/
def oldestScan : List (String × CacheItem α) → String × Int → String × Int
  | [], acc => acc
  | (k, it) :: rest, (ok, ot) =>
      oldestScan rest (if ok = "" ∨ it.accessedAt < ot then (k, it.accessedAt) else (ok, ot))

/-- `Cache.evictLRU`: delete the scan winner unless the sentinel `""` is
still in `oldestKey` after the loop. -/
def Cache.evictLRU (c : Cache α) : Cache α :=
  let p := oldestScan c.items ("", 0)
  if p.1 ≠ "" then
    { c with items := mapErase c.items p.1,
             stats := { c.stats with evictions := c.stats.evictions + 1 } }
  else c

/-- `Cache.SetWithTTL`: evict when `len(c.items) >= c.maxSize`, then insert
(the capacity check does not look at whether `key` is already present). -/
def Cache.SetWithTTL (c : Cache α) (key : String) (v : α) (ttl : Int) (now : Int) :
    Cache α :=
  let item : CacheItem α := { value := v, expiresAt := now + ttl, accessedAt := now, hitCount := 0 }
  let c := if (c.items.length : Int) ≥ c.maxSize then c.evictLRU else c
  { c with items := mapInsert c.items key item }

/-- `Cache.Set`. -/
def Cache.Set (c : Cache α) (key : String) (v : α) (now : Int) : Cache α :=
  c.SetWithTTL key v c.defaultTTL now

/-- `Cache.Delete`. -/
def Cache.Delete (c : Cache α) (key : String) : Cache α :=
  { c with items := mapErase c.items key }

/-- `Cache.Clear` (statistics are kept, as in the source). -/
def Cache.Clear (c : Cache α) : Cache α :=
  { c with items := [] }

/-- `Cache.Size`. -/
def Cache.Size (c : Cache α) : Nat :=
  c.items.length

/-! ### Concrete instances used by witnesses and counterexamples -/

/-- A breaker configuration matching spec scenario C: threshold 2, recovery
timeout 100, one half-open trial call. -/
def cbDemoConfig : CircuitBreakerConfig :=
  { failureThreshold := 2, recoveryTimeout := 100, maxRetries := 3,
    retryDelay := 1, halfOpenMaxCalls := 1 }

/-- A fresh Closed breaker under `cbDemoConfig`. -/
def cbDemo : CircuitBreaker :=
  { state := .StateClosed, failureCount := 0, successCount := 0,
    lastFailureTime := 0, config := cbDemoConfig }

/-- An Open breaker that tripped at time 100. -/
def cbOpenDemo : CircuitBreaker :=
  { state := .StateOpen, failureCount := 2, successCount := 0,
    lastFailureTime := 100, config := cbDemoConfig }

/-- A HalfOpen breaker with no trial successes yet. -/
def cbHalfDemo : CircuitBreaker :=
  { state := .StateHalfOpen, failureCount := 2, successCount := 0,
    lastFailureTime := 100, config := cbDemoConfig }

/-- A rate limiter whose breaker is Open with a recent failure, so that
`CanExecute` (and hence `Wait`) denies execution. -/
def rlOpenDemo : RateLimiter :=
  { circuitBreaker := cbOpenDemo
    metrics := { totalRequests := 0, allowedRequests := 0, rejectedRequests := 0,
                 circuitBreakerTrips := 0, lastReset := 0 } }

/-- A categorized error of kind Network built with the plain `NewError`
constructor, which leaves `Retryable` at its default `false`. -/
def nonRetryableNetworkError : GoError :=
  .categorized (NewError .network "NETWORK_ERROR")

/-- An adaptive limiter one window past its last adjustment, with a 99%
success window and a Closed breaker. -/
def aDemo : AdaptiveRateLimiter :=
  { rl := { circuitBreaker := cbDemo
            metrics := { totalRequests := 100, allowedRequests := 99,
                         rejectedRequests := 1, circuitBreakerTrips := 0, lastReset := 0 } }
    baseRPS := 10, currentRPS := 10, minRPS := 1, maxRPS := 20,
    adjustPeriod := 30, lastAdjust := 0 }

/-- A full capacity-2 cache holding "a" (accessed at 0) and "b" (accessed
at 1), both unexpired until time 1000. -/
def cacheAB : Cache Nat :=
  { items := [("a", { value := 0, expiresAt := 1000, accessedAt := 0, hitCount := 0 }),
              ("b", { value := 1, expiresAt := 1000, accessedAt := 1, hitCount := 0 })]
    maxSize := 2, defaultTTL := 50
    stats := { hits := 0, misses := 0, evictions := 0, expirations := 0 } }

/-- A cache holding one entry, well below its capacity of 3. -/
def cacheSmall : Cache Nat :=
  { items := [("a", { value := 0, expiresAt := 1000, accessedAt := 0, hitCount := 0 })]
    maxSize := 3, defaultTTL := 50
    stats := { hits := 0, misses := 0, evictions := 0, expirations := 0 } }

/-- An empty cache of capacity 1 with default TTL 1000. -/
def emptyCache1 : Cache Nat :=
  NewCache Nat 1 1000

/-! ## Theorems -/

/-! ### Circuit breaker helper lemmas -/

theorem onFailures_from_open : ∀ (ts : List Int) (c : CircuitBreaker),
    c.state = .StateOpen → (c.OnFailures ts).state = .StateOpen := by
  intro ts
  induction ts with
  | nil => intro c h; exact h
  | cons t ts ih =>
      intro c h
      show ((c.OnFailure t).OnFailures ts).state = _
      apply ih
      simp [CircuitBreaker.OnFailure, h]

theorem onFailures_reach_open : ∀ (ts : List Int) (c : CircuitBreaker),
    c.state = .StateClosed →
    c.failureCount + (ts.length : Int) ≥ c.config.failureThreshold →
    ts ≠ [] → (c.OnFailures ts).state = .StateOpen := by
  intro ts
  induction ts with
  | nil => intro c _ _ h; exact absurd rfl h
  | cons t ts ih =>
      intro c hst hlen _
      show ((c.OnFailure t).OnFailures ts).state = _
      by_cases hthr : c.failureCount + 1 ≥ c.config.failureThreshold
      · apply onFailures_from_open
        simp [CircuitBreaker.OnFailure, hst, hthr]
      · have hstep : c.OnFailure t =
            { c with lastFailureTime := t, failureCount := c.failureCount + 1 } := by
          simp [CircuitBreaker.OnFailure, hst, hthr]
        rw [hstep]
        apply ih
        · exact hst
        · show c.failureCount + 1 + (ts.length : Int) ≥ c.config.failureThreshold
          simp only [List.length_cons] at hlen
          push_cast at hlen ⊢
          omega
        · intro hnil
          subst hnil
          simp only [List.length_cons, List.length_nil] at hlen
          push_cast at hlen
          omega

theorem onSuccesses_from_closed : ∀ (n : Nat) (c : CircuitBreaker),
    c.state = .StateClosed → (c.OnSuccesses n).state = .StateClosed := by
  intro n
  induction n with
  | zero => intro c h; exact h
  | succ n ih =>
      intro c h
      show (c.OnSuccess.OnSuccesses n).state = _
      apply ih
      simp [CircuitBreaker.OnSuccess, h]

theorem onSuccesses_reach_closed : ∀ (n : Nat) (c : CircuitBreaker),
    c.state = .StateHalfOpen →
    c.successCount + (n : Int) ≥ c.config.halfOpenMaxCalls →
    n ≠ 0 → (c.OnSuccesses n).state = .StateClosed := by
  intro n
  induction n with
  | zero => intro c _ _ h; exact absurd rfl h
  | succ n ih =>
      intro c hst hlen _
      show (c.OnSuccess.OnSuccesses n).state = _
      by_cases hmax : c.successCount + 1 ≥ c.config.halfOpenMaxCalls
      · apply onSuccesses_from_closed
        simp [CircuitBreaker.OnSuccess, hst, hmax]
      · have hstep : c.OnSuccess = { c with successCount := c.successCount + 1 } := by
          simp [CircuitBreaker.OnSuccess, hst, hmax]
        rw [hstep]
        apply ih
        · exact hst
        · show c.successCount + 1 + (n : Int) ≥ c.config.halfOpenMaxCalls
          push_cast at hlen ⊢
          omega
        · intro hnil
          subst hnil
          push_cast at hlen
          omega

/-- Claim C1: the circuit breaker's step functions realize exactly the
specified transitions — in Closed, `OnSuccess` resets the failure count and
`failureThreshold` consecutive `OnFailure` calls from a zero count move the
state to Open; in Open, the first `CanExecute` invoked more than
`recoveryTimeout` after `lastFailureTime` moves the state to HalfOpen and
returns true; in HalfOpen, `halfOpenMaxCalls` consecutive `OnSuccess` calls
move the state to Closed; and in HalfOpen a single `OnFailure` moves the
state to Open and resets the success count. -/
theorem circuit_breaker_transitions :
    (∀ c : CircuitBreaker, c.state = .StateClosed → c.OnSuccess.failureCount = 0) ∧
    (∀ (c : CircuitBreaker) (ts : List Int),
      c.state = .StateClosed → c.failureCount = 0 →
      (ts.length : Int) = c.config.failureThreshold → ts ≠ [] →
      (c.OnFailures ts).state = .StateOpen) ∧
    (∀ (c : CircuitBreaker) (now : Int),
      c.state = .StateOpen → now - c.lastFailureTime > c.config.recoveryTimeout →
      (c.CanExecute now).1 = true ∧ (c.CanExecute now).2.state = .StateHalfOpen) ∧
    (∀ (c : CircuitBreaker) (n : Nat),
      c.state = .StateHalfOpen → c.successCount = 0 →
      (n : Int) = c.config.halfOpenMaxCalls → n ≠ 0 →
      (c.OnSuccesses n).state = .StateClosed) ∧
    (∀ (c : CircuitBreaker) (now : Int),
      c.state = .StateHalfOpen →
      (c.OnFailure now).state = .StateOpen ∧ (c.OnFailure now).successCount = 0) := by
  refine ⟨?_, ?_, ?_, ?_, ?_⟩
  · intro c h
    simp [CircuitBreaker.OnSuccess, h]
  · intro c ts hst hfc hlen hne
    exact onFailures_reach_open ts c hst (by omega) hne
  · intro c now hst hrec
    constructor <;> simp [CircuitBreaker.CanExecute, hst, hrec]
  · intro c n hst hsc hlen hne
    exact onSuccesses_reach_closed n c hst (by omega) hne
  · intro c now hst
    constructor <;> simp [CircuitBreaker.OnFailure, hst]

/-- Witness for C1 at the concrete breaker instances (threshold 2, recovery
timeout 100, one half-open trial call). -/
theorem circuit_breaker_transitions_witness :
    cbDemo.OnSuccess.failureCount = 0 ∧
    (cbDemo.OnFailures [5, 6]).state = .StateOpen ∧
    ((cbOpenDemo.CanExecute 250).1 = true ∧
      (cbOpenDemo.CanExecute 250).2.state = .StateHalfOpen) ∧
    (cbHalfDemo.OnSuccesses 1).state = .StateClosed ∧
    ((cbHalfDemo.OnFailure 7).state = .StateOpen ∧
      (cbHalfDemo.OnFailure 7).successCount = 0) :=
  ⟨circuit_breaker_transitions.1 cbDemo rfl,
   circuit_breaker_transitions.2.1 cbDemo [5, 6] rfl rfl (by decide) (by decide),
   circuit_breaker_transitions.2.2.1 cbOpenDemo 250 rfl (by decide),
   circuit_breaker_transitions.2.2.2.1 cbHalfDemo 1 rfl rfl (by decide) (by decide),
   circuit_breaker_transitions.2.2.2.2 cbHalfDemo 7 rfl⟩

/-! ### Rate limiter metrics -/

theorem applyOp_trips (r : RateLimiter) (op : RLOp)
    (h : r.metrics.circuitBreakerTrips = 0) :
    (r.applyOp op).metrics.circuitBreakerTrips = 0 := by
  cases op <;>
    simp only [RateLimiter.applyOp, RateLimiter.Allow, RateLimiter.Wait,
      RateLimiter.OnSuccess, RateLimiter.OnFailure, RateLimiter.ResetMetrics] <;>
    (try split_ifs) <;> simp_all

theorem runOps_trips : ∀ (ops : List RLOp) (r : RateLimiter),
    r.metrics.circuitBreakerTrips = 0 →
    (r.runOps ops).metrics.circuitBreakerTrips = 0 := by
  intro ops
  induction ops with
  | nil => intro r h; exact h
  | cons op ops ih =>
      intro r h
      exact ih (r.applyOp op) (applyOp_trips r op h)

/-- Claim C10: over every sequence of rate limiter operations starting from a
fresh limiter, the `CircuitBreakerTrips` counter reported by `GetMetrics`
stays zero — no operation ever increments it, including the `OnFailure` that
trips the breaker from Closed to Open. -/
theorem circuit_breaker_trips_always_zero (cfg : CircuitBreakerConfig) (t0 : Int)
    (ops : List RLOp) :
    ((NewRateLimiter cfg t0).runOps ops).GetMetrics.circuitBreakerTrips = 0 :=
  runOps_trips ops (NewRateLimiter cfg t0) rfl

/-! ### Retry policy -/

/-- Counterexample to C7 as stated: a categorized error of kind Network whose
`Retryable` flag is false (the `NewError` default) is in the default
retryable set and below the retry budget, yet `ShouldRetry` returns false. -/
theorem should_retry_counterexample :
    GetErrorType nonRetryableNetworkError = .network ∧
    (0 : Int) < DefaultRetryConfig.maxRetries ∧
    containsErrorType DefaultRetryConfig.retryableErrors .network = true ∧
    DefaultRetryConfig.ShouldRetry nonRetryableNetworkError 0 = false := by
  refine ⟨rfl, by decide, rfl, ?_⟩
  decide

/-- Claim C7 (amended): `ShouldRetry e n` is true exactly when `n` is below
`maxRetries`, the error carries a true `Retryable` flag, and its kind is in
the configured retryable set; the default retryable set is
{Network, Timeout, RateLimit, CircuitBreaker}. -/
theorem should_retry_characterization :
    (∀ (cfg : RetryConfig) (e : GoError) (n : Int),
      cfg.ShouldRetry e n = true ↔
        (n < cfg.maxRetries ∧ IsRetryable e = true ∧
          containsErrorType cfg.retryableErrors (GetErrorType e) = true)) ∧
    DefaultRetryConfig.retryableErrors = [.network, .timeout, .rateLimit, .circuitBreaker] := by
  constructor
  · intro cfg e n
    unfold RetryConfig.ShouldRetry
    split_ifs with h1 h2 h3 <;> simp_all
  · rfl

/-! ### Backoff delay -/

theorem delayLoop_eq (b : ℚ) : ∀ (n : Nat) (d : ℚ), delayLoop b d n = d * b ^ n := by
  intro n
  induction n with
  | zero => intro d; simp [delayLoop]
  | succ n ih =>
      intro d
      rw [delayLoop, ih, pow_succ]
      ring

/-- Claim C8: `CalculateDelay n` equals
`min (initialDelay * backoffMultiplier ^ n) maxDelay`; for a nonnegative
initial delay and a multiplier at least 1 it is non-decreasing in `n`, and it
never exceeds `maxDelay`. -/
theorem calculate_delay_spec (c : RetryConfig) :
    (∀ n : Nat, c.CalculateDelay n = min (c.initialDelay * c.backoffFactor ^ n) c.maxDelay) ∧
    (0 ≤ c.initialDelay → 1 ≤ c.backoffFactor →
      ∀ n m : Nat, n ≤ m → c.CalculateDelay n ≤ c.CalculateDelay m) ∧
    (∀ n : Nat, c.CalculateDelay n ≤ c.maxDelay) := by
  have hmin : ∀ n : Nat,
      c.CalculateDelay n = min (c.initialDelay * c.backoffFactor ^ n) c.maxDelay := by
    intro n
    unfold RetryConfig.CalculateDelay
    rw [delayLoop_eq]
    show (if c.initialDelay * c.backoffFactor ^ n > c.maxDelay then c.maxDelay
          else c.initialDelay * c.backoffFactor ^ n) = _
    split_ifs with h
    · exact (min_eq_right h.le).symm
    · exact (min_eq_left (not_lt.1 h)).symm
  refine ⟨hmin, ?_, ?_⟩
  · intro hd hb n m hnm
    rw [hmin n, hmin m]
    exact min_le_min (mul_le_mul_of_nonneg_left (pow_le_pow_right₀ hb hnm) hd) le_rfl
  · intro n
    rw [hmin n]
    exact min_le_right _ _

/-- Witness for C8 at the default retry configuration. -/
theorem calculate_delay_spec_witness :
    DefaultRetryConfig.CalculateDelay 1 ≤ DefaultRetryConfig.CalculateDelay 2 ∧
    DefaultRetryConfig.CalculateDelay 9 ≤ DefaultRetryConfig.maxDelay :=
  ⟨(calculate_delay_spec DefaultRetryConfig).2.1 (by norm_num [DefaultRetryConfig])
      (by norm_num [DefaultRetryConfig]) 1 2 (by norm_num),
   (calculate_delay_spec DefaultRetryConfig).2.2 9⟩

/-! ### HTTP outcome classification -/

/-- Counterexample to C2 as stated: status 402 is not 2xx and not in the
listed set, and the claim says any such unclassified outcome yields an
Internal error; the client instead builds an API-kind (`CLIENT_ERROR`)
categorized error. -/
theorem http_classification_counterexample :
    (classifyOutcome (.response 402)).map CError.errType = some ErrorType.api ∧
    ErrorType.api ≠ ErrorType.internalErr := by
  exact ⟨by decide, by decide⟩

set_option maxHeartbeats 1000000 in
/-- Claim C2 (amended): every HTTP attempt outcome is classified into exactly
one error kind per the reference mapping (400 Validation, 401 Authentication,
403 Authorization, 404 NotFound, 409 Conflict, 429 RateLimit, 408 Timeout,
>= 500 UpstreamAPI with severity High, transport failure Network), except
that any other non-2xx status yields an UpstreamAPI-kind client error
(severity Medium), not an Internal error. -/
theorem http_classification :
    (∀ o : HTTPOutcome, (classifyOutcome o).map CError.errType = specErrorKind o) ∧
    (∀ s : Int, 500 ≤ s →
      (handleHTTPResponse s).map CError.severity = some Severity.high) ∧
    (∀ s : Int, ¬ (200 ≤ s ∧ s < 300) → s < 500 →
      s ≠ 400 → s ≠ 401 → s ≠ 403 → s ≠ 404 → s ≠ 429 → s ≠ 409 → s ≠ 408 →
      (handleHTTPResponse s).map CError.severity = some Severity.medium) := by
  refine ⟨?_, ?_, ?_⟩
  · intro o
    cases o with
    | transportError m => rfl
    | response s =>
        simp only [classifyOutcome, specErrorKind, handleHTTPResponse]
        split_ifs <;> rfl
  · intro s hs
    unfold handleHTTPResponse
    split_ifs <;> try omega
    simp only [Option.map]
    unfold NewAPIError NewError
    simp [hs]
  · intro s h2xx h500 h400 h401 h403 h404 h429 h409 h408
    unfold handleHTTPResponse
    split_ifs <;> try omega
    simp only [Option.map]
    unfold NewAPIError NewError
    simp
    omega

/-- Witness for C2 at concrete statuses 503 and 402. -/
theorem http_classification_witness :
    (handleHTTPResponse 503).map CError.severity = some Severity.high ∧
    (handleHTTPResponse 402).map CError.severity = some Severity.medium :=
  ⟨http_classification.2.1 503 (by decide),
   http_classification.2.2 402 (by decide) (by decide) (by decide) (by decide)
     (by decide) (by decide) (by decide) (by decide) (by decide)⟩

/-! ### Wait-failure classification in the orchestrator -/

/-- Counterexample to C3 as stated: with the breaker Open and unrecovered,
`CanExecute` denies execution, `Wait` fails for that reason, and the attempt
outcome recorded by `executeRequest` is a RateLimit-kind error — not the
claimed CircuitBreakerOpen kind. -/
theorem wait_failure_counterexample :
    (rlOpenDemo.circuitBreaker.CanExecute 150).1 = false ∧
    ((attemptWaitOutcome rlOpenDemo 150 false).1).map CError.errType =
      some ErrorType.rateLimit ∧
    ErrorType.rateLimit ≠ ErrorType.circuitBreaker := by
  exact ⟨by decide, by decide, by decide⟩

/-- Claim C3 (amended): whenever `RateLimiter.Wait` fails inside the
orchestrator's retry loop — whether because the circuit breaker denies
execution or because the token wait ended with a context error — the
attempt's outcome is classified as a RateLimit-kind error. -/
theorem wait_failure_classified_rate_limit (r : RateLimiter) (now : Int)
    (werr : Bool) (e : CError)
    (h : (attemptWaitOutcome r now werr).1 = some e) :
    e.errType = ErrorType.rateLimit := by
  cases hw : (r.Wait now werr).1 with
  | none => simp [attemptWaitOutcome, hw] at h
  | some s =>
      simp only [attemptWaitOutcome, hw, Option.some.injEq] at h
      cases h
      rfl

/-- Witness for C3: the concrete Open-breaker denial above. -/
theorem wait_failure_classified_witness :
    NewRateLimitError.errType = ErrorType.rateLimit :=
  wait_failure_classified_rate_limit rlOpenDemo 150 false NewRateLimitError (by decide)

/-! ### Adaptive rate limiter -/

/-- Claim C6: `Adjust` is a no-op before `adjustPeriod` has elapsed or with
an empty metrics window; otherwise, with `successRate = allowed/total`, it
multiplies `currentRPS` by 1.1 capped at `maxRPS` when the rate exceeds 0.95
and the breaker is Closed, multiplies by 0.9 floored at `minRPS` when the
rate is below 0.8 or the breaker is not Closed, and leaves `currentRPS`
unchanged otherwise. -/
theorem adaptive_adjust_spec :
    (∀ (a : AdaptiveRateLimiter) (now : Int),
      now - a.lastAdjust < a.adjustPeriod → a.Adjust now = a) ∧
    (∀ (a : AdaptiveRateLimiter) (now : Int),
      ¬ now - a.lastAdjust < a.adjustPeriod → a.rl.metrics.totalRequests = 0 →
      a.Adjust now = a) ∧
    (∀ (a : AdaptiveRateLimiter) (now : Int),
      ¬ now - a.lastAdjust < a.adjustPeriod → a.rl.metrics.totalRequests ≠ 0 →
      (a.rl.metrics.allowedRequests : ℚ) / (a.rl.metrics.totalRequests : ℚ) > 95 / 100 →
      a.rl.circuitBreaker.state = .StateClosed →
      (a.Adjust now).currentRPS = min (a.currentRPS * (11 / 10)) a.maxRPS) ∧
    (∀ (a : AdaptiveRateLimiter) (now : Int),
      ¬ now - a.lastAdjust < a.adjustPeriod → a.rl.metrics.totalRequests ≠ 0 →
      ((a.rl.metrics.allowedRequests : ℚ) / (a.rl.metrics.totalRequests : ℚ) < 8 / 10 ∨
        a.rl.circuitBreaker.state ≠ .StateClosed) →
      (a.Adjust now).currentRPS = max (a.currentRPS * (9 / 10)) a.minRPS) ∧
    (∀ (a : AdaptiveRateLimiter) (now : Int),
      ¬ now - a.lastAdjust < a.adjustPeriod → a.rl.metrics.totalRequests ≠ 0 →
      ¬ ((a.rl.metrics.allowedRequests : ℚ) / (a.rl.metrics.totalRequests : ℚ) > 95 / 100 ∧
          a.rl.circuitBreaker.state = .StateClosed) →
      ¬ ((a.rl.metrics.allowedRequests : ℚ) / (a.rl.metrics.totalRequests : ℚ) < 8 / 10 ∨
          a.rl.circuitBreaker.state ≠ .StateClosed) →
      (a.Adjust now).currentRPS = a.currentRPS) := by
  refine ⟨?_, ?_, ?_, ?_, ?_⟩
  · intro a now h
    simp [AdaptiveRateLimiter.Adjust, h]
  · intro a now h ht
    simp [AdaptiveRateLimiter.Adjust, h, RateLimiter.GetMetrics, ht]
  · intro a now h ht hrate hcb
    simp only [AdaptiveRateLimiter.Adjust, RateLimiter.GetMetrics]
    rw [if_neg h, if_neg ht, if_pos ⟨hrate, hcb⟩]
  · intro a now h ht hdec
    have hfirst :
        ¬ ((a.rl.metrics.allowedRequests : ℚ) / (a.rl.metrics.totalRequests : ℚ) > 95 / 100 ∧
            a.rl.circuitBreaker.state = .StateClosed) := by
      rintro ⟨hr, hc⟩
      rcases hdec with hlow | hnc
      · linarith
      · exact hnc hc
    simp only [AdaptiveRateLimiter.Adjust, RateLimiter.GetMetrics]
    rw [if_neg h, if_neg ht, if_neg hfirst, if_pos hdec]
  · intro a now h ht h1 h2
    simp only [AdaptiveRateLimiter.Adjust, RateLimiter.GetMetrics]
    rw [if_neg h, if_neg ht, if_neg h1, if_neg h2]

/-- Witness for C6: a 99% window with a Closed breaker, one period past the
last adjustment, raises the rate to min(c * 1.1, max). -/
theorem adaptive_adjust_spec_witness :
    (aDemo.Adjust 100).currentRPS = min ((10 : ℚ) * (11 / 10)) 20 ∧
    ({ aDemo with lastAdjust := 90 } : AdaptiveRateLimiter).Adjust 100 =
      { aDemo with lastAdjust := 90 } :=
  ⟨adaptive_adjust_spec.2.2.1 aDemo 100 (by decide) (by decide) (by norm_num [aDemo, cbDemo]) rfl,
   adaptive_adjust_spec.1 { aDemo with lastAdjust := 90 } 100 (by decide)⟩

/-! ### Cache -/

theorem findItem_mapInsert {α : Type} (l : List (String × CacheItem α))
    (k k' : String) (it : CacheItem α) :
    findItem (mapInsert l k it) k' = if k = k' then some it else findItem l k' := by
  induction l with
  | nil => simp [mapInsert, findItem]
  | cons p rest ih =>
      obtain ⟨a, b⟩ := p
      by_cases hak : a = k
      · subst hak
        by_cases hkk : a = k'
        · subst hkk
          simp [mapInsert, findItem]
        · simp [mapInsert, findItem, hkk]
      · by_cases hak' : a = k'
        · subst hak'
          have hkk : ¬ k = a := fun h => hak h.symm
          simp [mapInsert, findItem, hak, hkk]
        · simp [mapInsert, findItem, hak, hak', ih]

theorem oldestScan_spec {α : Type} :
    ∀ (l : List (String × CacheItem α)) (ok : String) (ot : Int),
    ok ≠ "" → (∀ p ∈ l, p.1 ≠ "") →
    (((oldestScan l (ok, ot)).1 = ok ∧ (oldestScan l (ok, ot)).2 = ot) ∨
      (∃ it, ((oldestScan l (ok, ot)).1, it) ∈ l ∧
        (oldestScan l (ok, ot)).2 = it.accessedAt)) ∧
    (oldestScan l (ok, ot)).2 ≤ ot ∧
    (∀ p ∈ l, (oldestScan l (ok, ot)).2 ≤ p.2.accessedAt) := by
  intro l
  induction l with
  | nil =>
      intro ok ot _ _
      exact ⟨Or.inl ⟨rfl, rfl⟩, le_refl _, by simp⟩
  | cons p rest ih =>
      intro ok ot hok hne
      obtain ⟨k0, it0⟩ := p
      have hk0 : k0 ≠ "" := hne (k0, it0) (List.mem_cons_self _ _)
      have hrest : ∀ q ∈ rest, q.1 ≠ "" := fun q hq => hne q (List.mem_cons_of_mem _ hq)
      by_cases hc : it0.accessedAt < ot
      · have hstep : oldestScan ((k0, it0) :: rest) (ok, ot) =
            oldestScan rest (k0, it0.accessedAt) := by
          simp [oldestScan, hc]
        rw [hstep]
        obtain ⟨ha, hb, hall⟩ := ih k0 it0.accessedAt hk0 hrest
        refine ⟨?_, le_trans hb (le_of_lt hc), ?_⟩
        · rcases ha with ⟨h1, h2⟩ | ⟨it', hm, he⟩
          · exact Or.inr ⟨it0, by rw [h1]; exact List.mem_cons_self _ _, h2⟩
          · exact Or.inr ⟨it', List.mem_cons_of_mem _ hm, he⟩
        · intro q hq
          rcases List.mem_cons.1 hq with h | h
          · rw [h]
            exact hb
          · exact hall q h
      · have hstep : oldestScan ((k0, it0) :: rest) (ok, ot) =
            oldestScan rest (ok, ot) := by
          simp [oldestScan, hok, hc]
        rw [hstep]
        obtain ⟨ha, hb, hall⟩ := ih ok ot hok hrest
        refine ⟨?_, hb, ?_⟩
        · rcases ha with h | ⟨it', hm, he⟩
          · exact Or.inl h
          · exact Or.inr ⟨it', List.mem_cons_of_mem _ hm, he⟩
        · intro q hq
          rcases List.mem_cons.1 hq with h | h
          · rw [h]
            exact le_trans hb (not_lt.1 hc)
          · exact hall q h

/-- When no key is the empty string (the sentinel that triggers the bug
behind C5/C9) and one entry is strictly older than every other key's entry,
`evictLRU` removes exactly that entry, as the spec describes. -/
theorem evictLRU_removes_strict_oldest {α : Type} (c : Cache α) (k : String)
    (it : CacheItem α)
    (hne : ∀ p ∈ c.items, p.1 ≠ "")
    (hmem : (k, it) ∈ c.items)
    (hmin : ∀ p ∈ c.items, p.1 ≠ k → it.accessedAt < p.2.accessedAt) :
    c.evictLRU.items = mapErase c.items k ∧
    c.evictLRU.stats.evictions = c.stats.evictions + 1 := by
  rcases hl : c.items with _ | ⟨p0, rest⟩
  · rw [hl] at hmem
    simp at hmem
  · obtain ⟨k0, it0⟩ := p0
    have hk0 : k0 ≠ "" := by
      have := hne (k0, it0) (by rw [hl]; exact List.mem_cons_self _ _)
      exact this
    have hrest : ∀ q ∈ rest, q.1 ≠ "" := by
      intro q hq
      exact hne q (by rw [hl]; exact List.mem_cons_of_mem _ hq)
    have hstep : oldestScan c.items ("", 0) = oldestScan rest (k0, it0.accessedAt) := by
      rw [hl]
      simp [oldestScan]
    obtain ⟨ha, hb, hall⟩ := oldestScan_spec rest k0 it0.accessedAt hk0 hrest
    have hresk_mem : ∃ it',
        ((oldestScan rest (k0, it0.accessedAt)).1, it') ∈ c.items ∧
        (oldestScan rest (k0, it0.accessedAt)).2 = it'.accessedAt := by
      rcases ha with ⟨h1, h2⟩ | ⟨it', hm, he⟩
      · exact ⟨it0, by rw [hl, h1]; exact List.mem_cons_self _ _, h2⟩
      · exact ⟨it', by rw [hl]; exact List.mem_cons_of_mem _ hm, he⟩
    have hle : (oldestScan rest (k0, it0.accessedAt)).2 ≤ it.accessedAt := by
      have hmem2 := hmem
      rw [hl] at hmem2
      rcases List.mem_cons.1 hmem2 with h | h
      · have hsnd : it = it0 := congrArg Prod.snd h
        rw [hsnd]
        exact hb
      · exact hall (k, it) h
    have hrk : (oldestScan rest (k0, it0.accessedAt)).1 = k := by
      by_contra hrk
      obtain ⟨it', hm, he⟩ := hresk_mem
      have hlt := hmin ((oldestScan rest (k0, it0.accessedAt)).1, it') hm hrk
      rw [← he] at hlt
      exact absurd hle (not_le.2 hlt)
    have hkne : k ≠ "" := hne (k, it) hmem
    constructor
    · show (Cache.evictLRU c).items = _
      unfold Cache.evictLRU
      rw [hstep]
      simp only [hrk]
      split_ifs
      show mapErase c.items k = _
      rw [hl]
    · show (Cache.evictLRU c).stats.evictions = _
      unfold Cache.evictLRU
      rw [hstep]
      simp only [hrk]
      split_ifs
      rfl

/-- Counterexample to C4 as stated: `cacheAB` is at capacity and holds both
"a" and "b"; overwriting the already-present key "b" evicts the other entry
"a". -/
theorem set_overwrite_evicts_counterexample :
    (findItem cacheAB.items "b").isSome = true ∧
    (findItem cacheAB.items "a").isSome = true ∧
    findItem ((cacheAB.SetWithTTL "b" 5 100 10).items) "a" = none := by
  exact ⟨by decide, by decide, by decide⟩

/-- Claim C4 (amended): `Set`/`SetWithTTL` runs eviction exactly when the
cache is at capacity (`len(items) >= maxSize`), regardless of whether the
key being inserted is already present: below capacity no existing entry is
ever removed, while overwriting a present key at capacity does evict the
least-recently-accessed entry, which can be a different key. -/
theorem set_eviction_only_at_capacity {α : Type} :
    (∀ (c : Cache α) (key k' : String) (v : α) (ttl now : Int),
      (c.items.length : Int) < c.maxSize →
      (findItem c.items k').isSome = true →
      (findItem (c.SetWithTTL key v ttl now).items k').isSome = true) ∧
    ((findItem cacheAB.items "b").isSome = true ∧
      (cacheAB.items.length : Int) ≥ cacheAB.maxSize ∧
      findItem ((cacheAB.SetWithTTL "b" 5 100 10).items) "a" = none) := by
  constructor
  · intro c key k' v ttl now hlt hk'
    have hnot : ¬ ((c.items.length : Int) ≥ c.maxSize) := by omega
    show (findItem (mapInsert _ key _) k').isSome = true
    rw [if_neg hnot]
    rw [findItem_mapInsert]
    by_cases h : key = k'
    · simp [h]
    · simp [h, hk']
  · exact ⟨by decide, by decide, by decide⟩

/-- Witness for C4: below capacity (1 entry, capacity 3) an overwrite-free
insert keeps the existing key "a". -/
theorem set_eviction_only_at_capacity_witness :
    (findItem ((cacheSmall.SetWithTTL "b" 5 100 10).items) "a").isSome = true :=
  (set_eviction_only_at_capacity (α := Nat)).1 cacheSmall "b" "a" 5 100 10
    (by decide) (by decide)

/-- Claim C5 as evaluated at the failing input: with capacity 1, inserting
the two distinct keys "" and "x" (strictly increasing access times, no
intervening reads) is claimed to evict exactly the first-inserted key "";
instead `evictLRU` mistakes the empty-string key for its not-found sentinel,
evicts nothing, and both keys remain. -/
theorem lru_eviction_sentinel_failure :
    ((emptyCache1.Set "" 7 0).Set "x" 8 1).items.map Prod.fst = ["", "x"] ∧
    (findItem ((emptyCache1.Set "" 7 0).Set "x" 8 1).items "").isSome = true ∧
    ((emptyCache1.Set "" 7 0).Set "x" 8 1).stats.evictions = 0 := by
  exact ⟨by decide, by decide, by decide⟩

/-- Claim C9 as evaluated at the failing input: the same run leaves the
capacity-1 cache holding 2 entries, so `Size` exceeds `maxSize` after a
`Set`. -/
theorem cache_size_exceeds_capacity :
    (((emptyCache1.Set "" 7 0).Set "x" 8 1).Size : Int) = 2 ∧
    emptyCache1.maxSize = 1 ∧
    ¬ ((((emptyCache1.Set "" 7 0).Set "x" 8 1).Size : Int) ≤ emptyCache1.maxSize) := by
  refine ⟨by decide, by decide, ?_⟩
  decide

end NuclinoMCP
